import Mathlib

namespace LiqoAgent

/-!
Verification development for the liqo-resource-agent repository.

The Go sources are embedded shallowly:
* machine quantities (`k8s.io/apimachinery` `resource.Quantity`) are exact
  fixed-point decimals with exact `Add`/`Sub`/`Cmp`; they are modelled as `Int`;
* the record store (Kubernetes API) is passed in explicitly: list calls become
  list parameters, get/create/update on instruction records become operations
  on an association list;
* `resource.ParseQuantity` is an external library function and is modelled as
  an explicit parameter `parseQ : String → Option Int` (quantity strings that
  fail to parse map to `none`);
* wall-clock instants (`time.Time`, `metav1.Time`) are modelled as `Int`,
  with `t.Before u` becoming `t < u`.
-/

/-- One entry of `node.Status.Conditions` (`corev1.NodeCondition`): its type
and status, both strings in the source. -/
structure NodeCondition where
  condType : String
  status : String
deriving DecidableEq, Repr

/-- A node as consumed by `CollectClusterResources`
(`src/internal/metrics/collector.go`): the `Ready` condition list and the
optional CPU / memory / `nvidia.com/gpu` entries of `Status.Capacity` and
`Status.Allocatable` (a map without the key becomes `none`). -/
structure NodeInfo where
  conditions : List NodeCondition := []
  capCPU : Option Int := none
  capMemory : Option Int := none
  capGPU : Option Int := none
  allocCPU : Option Int := none
  allocMemory : Option Int := none
  allocGPU : Option Int := none
deriving DecidableEq, Repr

/-- Model of `isNodeReady` (collector.go): scan the conditions for type `Ready` and
return whether the first such condition has status `True`. -/
def isNodeReady (n : NodeInfo) : Bool :=
  match n.conditions.find? (fun c => c.condType == "Ready") with
  | some c => c.status == "True"
  | none => false

/-- Requests of one container (`container.Resources.Requests`): optional CPU,
memory and `nvidia.com/gpu` entries. -/
structure ContainerInfo where
  reqCPU : Option Int := none
  reqMemory : Option Int := none
  reqGPU : Option Int := none
deriving DecidableEq, Repr

/-- A pod as consumed by `calculateAllocatedResources` (collector.go): phase,
container and init-container requests, and the optional `pod.Spec.Overhead`
entries (a nil overhead map becomes three `none` fields). -/
structure PodInfo where
  phase : String := ""
  containers : List ContainerInfo := []
  initContainers : List ContainerInfo := []
  overheadCPU : Option Int := none
  overheadMemory : Option Int := none
  overheadGPU : Option Int := none
deriving DecidableEq, Repr

/-- A `ProviderInstruction` record as consumed by
`calculateReservedResources` (collector.go): the spec's requested quantity
strings and optional expiry, and the status's `Enforced` flag. -/
structure ProviderInstruction where
  name : String := ""
  requestedCPU : String := ""
  requestedMemory : String := ""
  expiresAt : Option Int := none
  enforced : Bool := false
deriving DecidableEq, Repr

/-- One `ResourceQuantities` value of the agent's API: CPU and memory always
present, GPU only when tracked (`*resource.Quantity` pointer field). -/
structure ResourceQuantities where
  cpu : Int
  memory : Int
  gpu : Option Int
deriving DecidableEq, Repr

/-- The `ResourceMetrics` snapshot returned by `CollectClusterResources`. -/
structure ResourceMetrics where
  capacity : ResourceQuantities
  allocatable : ResourceQuantities
  allocated : ResourceQuantities
  available : ResourceQuantities
deriving DecidableEq, Repr

/-- Addition `acc.Add(q)` for an optional map entry: add the value when the key is
present, otherwise leave the accumulator unchanged. -/
def addOpt (acc : Int) (q : Option Int) : Int :=
  match q with
  | some v => acc + v
  | none => acc

/-! ### Reserved resources (`calculateReservedResources`) -/

/-- Test `ExpiresAt != nil && ExpiresAt.Time.Before(now)`: the expiry test of the
collector and of both instruction reconcilers (`Before` is strict). -/
def expiredBefore (expiresAt : Option Int) (now : Int) : Bool :=
  match expiresAt with
  | some t => t < now
  | none => false

/-- Loop body of `calculateReservedResources` for one provider instruction:
skip unenforced instructions, skip instructions whose `ExpiresAt` is strictly
before `now`, parse the CPU string when non-empty (a parse failure `continue`s
and so also drops this instruction's memory), then parse the memory string
when non-empty (a parse failure drops only the memory). The accumulator is
the running (reservedCPU, reservedMemory) pair. -/
def reservedStep (parseQ : String → Option Int) (now : Int)
    (acc : Int × Int) (ins : ProviderInstruction) : Int × Int :=
  if !ins.enforced then acc
  else if expiredBefore ins.expiresAt now then acc
  else
    let afterCPU : Option (Int × Int) :=
      if ins.requestedCPU ≠ "" then
        match parseQ ins.requestedCPU with
        | none => none
        | some c => some (acc.1 + c, acc.2)
      else some acc
    match afterCPU with
    | none => acc
    | some acc1 =>
      if ins.requestedMemory ≠ "" then
        match parseQ ins.requestedMemory with
        | none => acc1
        | some m => (acc1.1, acc1.2 + m)
      else acc1

/-- Model of `calculateReservedResources` (collector.go): fold the instruction list
starting from zero quantities. The GPU accumulator of the source is dead code
(`hasGPU` is never set), so the result is the (CPU, memory) pair. -/
def calculateReservedResources (parseQ : String → Option Int) (now : Int)
    (instrs : List ProviderInstruction) : Int × Int :=
  instrs.foldl (reservedStep parseQ now) (0, 0)

/-- An instruction counts as an active hold when it is enforced and its
expiry is absent or not strictly before `now` (the source test is
`ExpiresAt.Time.Before(now)`, which is strict). -/
def holdActive (now : Int) (ins : ProviderInstruction) : Bool :=
  ins.enforced && !(expiredBefore ins.expiresAt now)

/-- CPU amount one instruction adds to Reserved. -/
def cpuContrib (parseQ : String → Option Int) (now : Int)
    (ins : ProviderInstruction) : Int :=
  if holdActive now ins then
    (if ins.requestedCPU ≠ "" then (parseQ ins.requestedCPU).getD 0 else 0)
  else 0

/-- Memory amount one instruction adds to Reserved: a CPU parse failure on
the same instruction suppresses it. -/
def memContrib (parseQ : String → Option Int) (now : Int)
    (ins : ProviderInstruction) : Int :=
  if holdActive now ins
      ∧ (ins.requestedCPU = "" ∨ (parseQ ins.requestedCPU).isSome) then
    (if ins.requestedMemory ≠ "" then (parseQ ins.requestedMemory).getD 0 else 0)
  else 0

/-! ### Node aggregation (`CollectClusterResources`, lines 46-79) -/

/-- Running totals of the node loop: capacity and allocatable CPU / memory,
the two GPU accumulators (`capacityGPU`, `allocatableGPU`) and the `hasGPU`
flag. -/
structure NodeAcc where
  capCPU : Int
  capMemory : Int
  capGPU : Int
  allocCPU : Int
  allocMemory : Int
  allocGPU : Int
  hasGPU : Bool
deriving DecidableEq, Repr

/-- Loop body over one node: non-ready nodes are skipped; each present map
entry is added; a present capacity GPU entry sets `hasGPU`. -/
def nodeStep (acc : NodeAcc) (n : NodeInfo) : NodeAcc :=
  if !isNodeReady n then acc
  else
    { capCPU := addOpt acc.capCPU n.capCPU
      capMemory := addOpt acc.capMemory n.capMemory
      capGPU := addOpt acc.capGPU n.capGPU
      allocCPU := addOpt acc.allocCPU n.allocCPU
      allocMemory := addOpt acc.allocMemory n.allocMemory
      allocGPU := addOpt acc.allocGPU n.allocGPU
      hasGPU := acc.hasGPU || n.capGPU.isSome }

/-- The node loop of `CollectClusterResources`, starting from zero totals. -/
def aggregateNodes (nodes : List NodeInfo) : NodeAcc :=
  nodes.foldl nodeStep ⟨0, 0, 0, 0, 0, 0, false⟩

/-! ### Allocated resources (`calculateAllocatedResources`) -/

/-- Running totals of the pod loop: allocated CPU / memory, the
`allocatedGPU` accumulator and the `hasGPU` flag. -/
structure PodAcc where
  cpu : Int
  memory : Int
  gpu : Int
  hasGPU : Bool
deriving DecidableEq, Repr

/-- Phase filter on `pod.Status.Phase`: only `Running` and `Pending` pods count. -/
def podActive (p : PodInfo) : Bool :=
  p.phase == "Running" || p.phase == "Pending"

/-- Sum of one request field over a pod's (concurrent) containers. -/
def containersReqSum (f : ContainerInfo → Option Int) (cs : List ContainerInfo) : Int :=
  cs.foldl (fun acc c => addOpt acc (f c)) 0

/-- Maximum of one request field over a pod's init containers, starting from
zero (`if cpu.Cmp(*initCPUMax) > 0` in the source). -/
def initReqMax (f : ContainerInfo → Option Int) (cs : List ContainerInfo) : Int :=
  cs.foldl (fun m c =>
    match f c with
    | some v => if v > m then v else m
    | none => m) 0

/-- Loop body of `calculateAllocatedResources` over one pod, mirroring the
source: sum requests of the concurrent containers, take the per-kind maximum
over init containers, set `hasGPU` on any `nvidia.com/gpu` request, add the
larger of sum and init-maximum per kind, add the GPU contribution only while
`hasGPU` is set, then add the fixed `pod.Spec.Overhead` (whose GPU entry also
sets `hasGPU`). -/
def podStep (acc : PodAcc) (p : PodInfo) : PodAcc :=
  if !podActive p then acc
  else
    let cCPU := containersReqSum (fun c => c.reqCPU) p.containers
    let cMem := containersReqSum (fun c => c.reqMemory) p.containers
    let cGPU := containersReqSum (fun c => c.reqGPU) p.containers
    let iCPU := initReqMax (fun c => c.reqCPU) p.initContainers
    let iMem := initReqMax (fun c => c.reqMemory) p.initContainers
    let iGPU := initReqMax (fun c => c.reqGPU) p.initContainers
    let hasGPU1 := acc.hasGPU || p.containers.any (fun c => c.reqGPU.isSome)
        || p.initContainers.any (fun c => c.reqGPU.isSome)
    let cpuContribution := if iCPU > cCPU then iCPU else cCPU
    let memContribution := if iMem > cMem then iMem else cMem
    let gpuContribution := if iGPU > cGPU then iGPU else cGPU
    let gpuAcc := if hasGPU1 then acc.gpu + gpuContribution else acc.gpu
    { cpu := addOpt (acc.cpu + cpuContribution) p.overheadCPU
      memory := addOpt (acc.memory + memContribution) p.overheadMemory
      gpu := addOpt gpuAcc p.overheadGPU
      hasGPU := hasGPU1 || p.overheadGPU.isSome }

/-- Model of `calculateAllocatedResources` (collector.go): fold the pod list starting
from zero totals. -/
def calculateAllocatedResources (pods : List PodInfo) : PodAcc :=
  pods.foldl podStep ⟨0, 0, 0, false⟩

/-! ### `CollectClusterResources` -/

/-- Model of `CollectClusterResources` (collector.go): fail when the node list is
empty, aggregate ready nodes into Capacity / Allocatable (GPU only when some
ready node reported a capacity GPU), compute Allocated and Reserved, then
derive Available by plain subtraction (`Quantity.Sub`, which does not clamp):
`available = allocatable - allocated - reserved` per resource kind, GPU only
when tracked. -/
def collectClusterResources (nodes : List NodeInfo) (pods : List PodInfo)
    (instrs : List ProviderInstruction) (parseQ : String → Option Int)
    (now : Int) : Except String ResourceMetrics :=
  if nodes.isEmpty then .error "no nodes found in cluster"
  else
    let agg := aggregateNodes nodes
    let capacity : ResourceQuantities :=
      { cpu := agg.capCPU, memory := agg.capMemory
        gpu := if agg.hasGPU then some agg.capGPU else none }
    let allocatable : ResourceQuantities :=
      { cpu := agg.allocCPU, memory := agg.allocMemory
        gpu := if agg.hasGPU then some agg.allocGPU else none }
    let alloc := calculateAllocatedResources pods
    let allocated : ResourceQuantities :=
      { cpu := alloc.cpu, memory := alloc.memory
        gpu := if alloc.hasGPU then some alloc.gpu else none }
    let rsv := calculateReservedResources parseQ now instrs
    let reserved : ResourceQuantities := { cpu := rsv.1, memory := rsv.2, gpu := none }
    let available : ResourceQuantities :=
      { cpu := allocatable.cpu - allocated.cpu - reserved.cpu
        memory := allocatable.memory - allocated.memory - reserved.memory
        gpu :=
          if agg.hasGPU then
            some (agg.allocGPU - (allocated.gpu.getD 0) - (reserved.gpu.getD 0))
          else none }
    .ok { capacity := capacity, allocatable := allocatable,
          allocated := allocated, available := available }

/-! ### Characterizations of the accumulation loops as per-element sums -/

/-- Capacity / allocatable amount contributed by one node for one field:
zero for non-ready nodes and absent entries. -/
def nodeContrib (f : NodeInfo → Option Int) (n : NodeInfo) : Int :=
  if isNodeReady n then (f n).getD 0 else 0

/-- Whether one node makes the cluster GPU-tracked: it is ready and reports a
capacity GPU entry. -/
def nodeHasGPU (n : NodeInfo) : Bool :=
  isNodeReady n && n.capGPU.isSome

/-- CPU amount one pod adds to Allocated: the larger of the concurrent sum
and the init-container maximum, plus the fixed overhead; zero for pods in a
terminal phase. -/
def podCPU (p : PodInfo) : Int :=
  if podActive p then
    (let c := containersReqSum (fun x => x.reqCPU) p.containers
     let i := initReqMax (fun x => x.reqCPU) p.initContainers
     (if i > c then i else c)) + p.overheadCPU.getD 0
  else 0

/-- Memory amount one pod adds to Allocated. -/
def podMemory (p : PodInfo) : Int :=
  if podActive p then
    (let c := containersReqSum (fun x => x.reqMemory) p.containers
     let i := initReqMax (fun x => x.reqMemory) p.initContainers
     (if i > c then i else c)) + p.overheadMemory.getD 0
  else 0

/-- GPU amount one pod adds to the `allocatedGPU` accumulator. -/
def podGPU (p : PodInfo) : Int :=
  if podActive p then
    (let c := containersReqSum (fun x => x.reqGPU) p.containers
     let i := initReqMax (fun x => x.reqGPU) p.initContainers
     (if i > c then i else c)) + p.overheadGPU.getD 0
  else 0

/-- Whether one pod makes Allocated GPU-tracked: it is active and requests a
`nvidia.com/gpu` entry in a container, init container or overhead. -/
def podHasGPU (p : PodInfo) : Bool :=
  podActive p
    && (p.containers.any (fun c => c.reqGPU.isSome)
        || p.initContainers.any (fun c => c.reqGPU.isSome)
        || p.overheadGPU.isSome)

/-- The claim's clamped subtraction, `clamp(x, 0)` (spec-side definition used
only to compare against the source's behaviour). -/
def clampNonneg (x : Int) : Int := max x 0

/-- Concrete quantity parser used only to instantiate the `parseQ` parameter
in witnesses: accepts the handful of digit strings those concrete inputs use
and rejects everything else (standing in for `resource.ParseQuantity`). -/
def simpleParse (s : String) : Option Int :=
  if s = "2" then some 2
  else if s = "3" then some 3
  else if s = "4" then some 4
  else if s = "5" then some 5
  else none

/-- Ready node with 1 CPU (1000 milli-units) used by the C1 counterexample. -/
def smallNode : NodeInfo :=
  { conditions := [⟨"Ready", "True"⟩]
    capCPU := some 1000, capMemory := some 0
    allocCPU := some 1000, allocMemory := some 0 }

/-- Running pod requesting 2 CPU, exceeding the node's allocatable 1 CPU. -/
def oversubscribedPod : PodInfo :=
  { phase := "Running", containers := [{ reqCPU := some 2000, reqMemory := some 0 }] }

/-- Pod of the claim's example: concurrent sum 0.5 CPU (500 milli), one init
container requesting 2 CPU (2000 milli), overhead 0.25 CPU (250 milli). -/
def examplePod : PodInfo :=
  { phase := "Running"
    containers := [{ reqCPU := some 500 }]
    initContainers := [{ reqCPU := some 2000 }]
    overheadCPU := some 250 }

/-- Enforced hold whose expiry equals the evaluation instant. -/
def expiryInstantHold : ProviderInstruction :=
  { name := "hold-1", requestedCPU := "2", requestedMemory := "4",
    expiresAt := some 100, enforced := true }

/-- Second ready node (2 CPU) used by the C8 witness. -/
def secondNode : NodeInfo :=
  { conditions := [⟨"Ready", "True"⟩]
    capCPU := some 2000, capMemory := some 0
    allocCPU := some 2000, allocMemory := some 0 }

/-- Pending pod requesting half a CPU, used by the C8 witness. -/
def smallPod : PodInfo :=
  { phase := "Pending", containers := [{ reqCPU := some 500, reqMemory := some 0 }] }

/-- Enforced unexpired hold used by the C8 witness. -/
def witnessHold : ProviderInstruction :=
  { name := "hold-w", requestedCPU := "2", requestedMemory := "4", enforced := true }

/-- Second enforced hold used by the C8 witness. -/
def witnessHold2 : ProviderInstruction :=
  { name := "hold-w2", requestedCPU := "3", requestedMemory := "5", enforced := true }

/-! ### Advertisement publisher (`broker_client.go`, HTTP transport) -/

/-- Broker-owned `reserved` map: quantity strings keyed by resource name
(the source's loosely typed `map[string]interface{}` value), copied verbatim
when preserved. -/
structure ReservedFigure where
  entries : List (String × String)
deriving DecidableEq, Repr

/-- Broker-side ClusterAdvertisement record as read back by `publishOnce`:
its optional `spec.resources.reserved` map and its version token. -/
structure BrokerRecord where
  reserved : Option ReservedFigure := none
  resourceVersion : String := ""
deriving DecidableEq, Repr

/-- Outbound `spec.resources` of the ClusterAdvertisement built by
`publishOnce`: the four locally computed quantity sets, plus a `reserved`
key only when one was preserved from the broker. -/
structure OutboundResourcesSpec where
  capacity : ResourceQuantities
  allocatable : ResourceQuantities
  allocated : ResourceQuantities
  available : ResourceQuantities
  reserved : Option ReservedFigure
deriving DecidableEq, Repr

/-- Model of `publishOnce` (broker_client.go, lines 117-205) up to the
outbound message it builds: `fetched = none` models a failed `Get` of the
existing advertisement (including not-found on first publish); when the
fetch succeeded and the record carries `spec.resources.reserved`, that map
is copied verbatim into the outbound spec; in every other case the
`reserved` key is omitted. -/
def publishOnceResourcesSpec (m : ResourceMetrics)
    (fetched : Option BrokerRecord) : OutboundResourcesSpec :=
  let reservedResources : Option ReservedFigure :=
    match fetched with
    | some existing => existing.reserved
    | none => none
  { capacity := m.capacity, allocatable := m.allocatable,
    allocated := m.allocated, available := m.available,
    reserved := reservedResources }

/-- Model of STEP 1 of `HTTPCommunicator.PublishAdvertisement`
(`src/unnamed/part_006`, lines 102-161): the outbound DTO's `Reserved` field
after the preservation step. `fetched = none` models a failed GET, a
non-200 status or an undecodable body; `some r` models a decoded body whose
`Resources.Reserved` is `r` (possibly absent). Only a present broker
Reserved overwrites the DTO's field. -/
def httpPublishReserved (advReserved : Option ReservedFigure)
    (fetched : Option (Option ReservedFigure)) : Option ReservedFigure :=
  match fetched with
  | some (some r) => some r
  | some none => advReserved
  | none => advReserved

/-- Model of `ToAdvertisementDTO` (transport/dto/advertisement.go) as far as
Reserved is concerned: the agent-built DTO never carries a Reserved figure
("will be fetched from broker during publish"). -/
def toAdvertisementDTOReserved : Option ReservedFigure := none

/-! ### Publish retry loop (`PublishAdvertisement`, `isTransientError`) -/

/-- Failure kinds of a single publish attempt against the broker API,
as classified by the `apierrors` predicates used in `isTransientError`. -/
inductive ApiError where
  | timeout
  | serverTimeout
  | serviceUnavailable
  | tooManyRequests
  | internalError
  | badRequest
  | unauthorized
  | forbidden
  | notFound
deriving DecidableEq, Repr

/-- Model of `isTransientError` (broker_client.go, lines 208-223): nil
errors are not transient; timeouts, server timeouts, service-unavailable,
too-many-requests and internal (5xx) errors are transient; everything else
(bad request, auth failures, not-found, ...) is not. -/
def isTransientError (err : Option ApiError) : Bool :=
  match err with
  | none => false
  | some .timeout => true
  | some .serverTimeout => true
  | some .serviceUnavailable => true
  | some .tooManyRequests => true
  | some .internalError => true
  | some _ => false

/-- Error returned by the backoff loop itself: either the condition's own
(non-transient) error, or `ErrWaitTimeout` when the steps are exhausted. -/
inductive BackoffError where
  | errWaitTimeout
  | conditionError (e : ApiError)
deriving DecidableEq, Repr

/-- Model of `wait.ExponentialBackoff` specialised to the closure inside
`PublishAdvertisement`: `attempts i` is the outcome of the i-th
`publishOnce` call (`none` = success). With `steps` remaining attempts, a
success stops with no error, a transient failure records it as `lastErr`
and retries, a non-transient failure is returned immediately, and running
out of steps yields `ErrWaitTimeout`; the pair also carries the final
`lastErr`. Backoff delays (500 ms doubling, jitter 0.1) affect only timing,
not the result. -/
def exponentialBackoffLoop (attempts : Nat → Option ApiError) :
    Nat → Nat → Option ApiError → Option BackoffError × Option ApiError
  | 0, _, lastErr => (some .errWaitTimeout, lastErr)
  | steps + 1, i, lastErr =>
    match attempts i with
    | none => (none, lastErr)
    | some e =>
      if isTransientError (some e) then
        exponentialBackoffLoop attempts steps (i + 1) (some e)
      else (some (.conditionError e), lastErr)

/-- Result of `PublishAdvertisement` as seen by the caller. -/
inductive PublishResult where
  | ok
  | publishFailedAfterRetries (lastTransient : ApiError)
  | failed (e : BackoffError)
deriving DecidableEq, Repr

/-- Model of `PublishAdvertisement` (broker_client.go, lines 76-114) on the
enabled path: run the backoff loop with `Steps = 4`; on failure, when some
transient error was recorded the caller receives an error wrapping that last
transient error ("publish failed after retries: %w"), otherwise the loop's
own error is returned unchanged. -/
def publishAdvertisement (attempts : Nat → Option ApiError) : PublishResult :=
  match exponentialBackoffLoop attempts 4 0 none with
  | (none, _) => .ok
  | (some _, some lastErr) => .publishFailedAfterRetries lastErr
  | (some e, none) => .failed e

/-- Attempt trace for the C7 witness: one transient service-unavailable
failure followed by success. -/
def transientThenOk : Nat → Option ApiError
  | 0 => some .serviceUnavailable
  | _ => none

/-- Attempt trace of the C7 counterexample: a transient timeout followed by
a non-transient bad request. -/
def transientThenPermanent : Nat → Option ApiError
  | 0 => some .timeout
  | _ => some .badRequest

/-! ### Advertisement reconciliation (`advertisement_controller.go`) -/

/-- Outcome of one `AdvertisementReconciler.Reconcile` pass as far as the
claims are concerned: the status phase written and whether a broker publish
was attempted. -/
structure ReconcileOutcome where
  statusPhase : String
  publishAttempted : Bool
deriving DecidableEq, Repr

/-- Model of `AdvertisementReconciler.Reconcile`
(advertisement_controller.go): a missing Advertisement returns without
publishing; a collection failure writes status `Error` and returns before
any publish; otherwise status `Active` is written and the broker publish is
attempted exactly when the broker client is present and enabled (cluster-id
lookup and the record-store writes are modelled as succeeding). -/
def reconcileAdvertisement (advFound : Bool) (brokerEnabled : Bool)
    (nodes : List NodeInfo) (pods : List PodInfo)
    (instrs : List ProviderInstruction) (parseQ : String → Option Int)
    (now : Int) : ReconcileOutcome :=
  if !advFound then { statusPhase := "", publishAttempted := false }
  else
    match collectClusterResources nodes pods instrs parseQ now with
    | .error _ => { statusPhase := "Error", publishAttempted := false }
    | .ok _ => { statusPhase := "Active", publishAttempted := brokerEnabled }

/-- Node that is present in the inventory but not in the ready condition. -/
def notReadyNode : NodeInfo :=
  { conditions := [⟨"Ready", "False"⟩]
    capCPU := some 1000, capMemory := some 0
    allocCPU := some 1000, allocMemory := some 0 }

/-! ### Reservation delivery engine (`transport/http/poller.go`,
instruction reconcilers in `src/unnamed/part_004` and `part_005`) -/

/-- A `ReservationInstruction` record (api/v1alpha1): the spec fields
written by the poller plus the status's `Delivered` flag. -/
structure ReservationInstruction where
  reservationName : String := ""
  targetClusterID : String := ""
  requestedCPU : String := ""
  requestedMemory : String := ""
  message : String := ""
  expiresAt : Option Int := none
  delivered : Bool := false
deriving DecidableEq, Repr

/-- A reservation as fetched from the broker (`dto.ReservationDTO`). -/
structure ReservationDTO where
  id : String := ""
  requesterID : String := ""
  targetClusterID : String := ""
  requestedCPU : String := ""
  requestedMemory : String := ""
  phase : String := ""
  expiresAt : Option Int := none
deriving DecidableEq, Repr

/-- Lookup by record name in the namespaced instruction store, modelled as
an association list. -/
def storeGet {α : Type} (store : List (String × α)) (name : String) : Option α :=
  match store.find? (fun kv => kv.1 == name) with
  | some kv => some kv.2
  | none => none

/-- The `ReservationInstruction` the poller builds from a reservation
(poller.go, lines 137-153), including the formatted `Message`; a fresh
record's status is zero-valued, so `delivered = false`. -/
def requesterInstructionOf (rsv : ReservationDTO) : ReservationInstruction :=
  { reservationName := rsv.id
    targetClusterID := rsv.targetClusterID
    requestedCPU := rsv.requestedCPU
    requestedMemory := rsv.requestedMemory
    message := "Use " ++ rsv.targetClusterID ++ " for " ++ rsv.requestedCPU
        ++ " CPU / " ++ rsv.requestedMemory ++ " Memory"
    expiresAt := rsv.expiresAt
    delivered := false }

/-- Model of `createRequesterInstruction` (poller.go, lines 116-166): the
instruction is keyed by the reservation id; when a record with that name
already exists the function returns immediately ("already exists, no need
to recreate") without touching it; only a missing record is created.  Get
failures other than not-found are out of this model (store lookups always
answer). -/
def createRequesterInstruction (store : List (String × ReservationInstruction))
    (rsv : ReservationDTO) : List (String × ReservationInstruction) :=
  let instructionName := rsv.id
  match storeGet store instructionName with
  | some _ => store
  | none => store ++ [(instructionName, requesterInstructionOf rsv)]

/-- Model of the requester half of `pollAndProcess` (poller.go, lines
85-113): walk the fetched reservations and process only those in phase
`Reserved`. -/
def pollAndProcessRequester (store : List (String × ReservationInstruction))
    (reservations : List ReservationDTO) : List (String × ReservationInstruction) :=
  reservations.foldl
    (fun s rsv => if rsv.phase == "Reserved" then createRequesterInstruction s rsv else s)
    store

/-- First observation of reservation res-1, targeting cluster paris. -/
def firstObservation : ReservationDTO :=
  { id := "res-1", requesterID := "rome", targetClusterID := "paris"
    requestedCPU := "4", requestedMemory := "8", phase := "Reserved" }

/-- Second observation of the same reservation with a corrected target. -/
def secondObservation : ReservationDTO :=
  { firstObservation with targetClusterID := "berlin" }

/-- Model of `ProviderInstructionReconciler.Reconcile`
(`src/unnamed/part_004`) as the transformation of the fetched record: a
missing record stays missing (not-found returns); a record whose expiry has
strictly passed gets `Status.Enforced = false`; otherwise an
already-enforced record is kept as is (only requeued) and a not-yet-enforced
record is marked enforced. The reconciler issues no Delete call, so a
present record remains present. -/
def providerInstructionReconcile (now : Int) (found : Option ProviderInstruction) :
    Option ProviderInstruction :=
  match found with
  | none => none
  | some ins =>
    if expiredBefore ins.expiresAt now then some { ins with enforced := false }
    else if ins.enforced then some ins
    else some { ins with enforced := true }

/-- Model of `ReservationInstructionReconciler.Reconcile`
(`src/unnamed/part_005`): an expired record has `Status.Delivered` lowered
to false (the status write happens only when it was true, but the resulting
state is delivered = false either way); otherwise an undelivered record is
processed and marked delivered, and a delivered one is only requeued. No
record is deleted. -/
def reservationInstructionReconcile (now : Int)
    (found : Option ReservationInstruction) : Option ReservationInstruction :=
  match found with
  | none => none
  | some ins =>
    if expiredBefore ins.expiresAt now then
      if ins.delivered then some { ins with delivered := false } else some ins
    else if ins.delivered then some ins
    else some { ins with delivered := true }

/-- Expired provider hold for the C9 witness. -/
def expiredProviderHold : ProviderInstruction :=
  { name := "res-9-provider", requestedCPU := "2", requestedMemory := "4",
    expiresAt := some 50, enforced := true }

/-- Expired, delivered requester instruction for the C9 witness. -/
def expiredRequesterInstruction : ReservationInstruction :=
  { reservationName := "res-9", targetClusterID := "paris",
    expiresAt := some 50, delivered := true }

/-- Enforced hold whose CPU string does not parse (C10 witness input). -/
def badCPUHold : ProviderInstruction :=
  { name := "bad-cpu", requestedCPU := "junk", requestedMemory := "4", enforced := true }

/-- Enforced hold whose memory string does not parse (C10 witness input). -/
def badMemoryHold : ProviderInstruction :=
  { name := "bad-mem", requestedCPU := "2", requestedMemory := "junk", enforced := true }

/-! ### Theorems -/

theorem reservedStep_eq (parseQ : String → Option Int) (now : Int)
    (acc : Int × Int) (ins : ProviderInstruction) :
    reservedStep parseQ now acc ins
      = (acc.1 + cpuContrib parseQ now ins, acc.2 + memContrib parseQ now ins) := by
  unfold reservedStep cpuContrib memContrib holdActive
  cases he : ins.enforced with
  | false => simp [he]
  | true =>
    cases hx : expiredBefore ins.expiresAt now with
    | true => simp [he, hx]
    | false =>
      simp only [he, hx, Bool.not_true, Bool.not_false, Bool.true_and,
        Bool.false_eq_true, if_false, if_true]
      by_cases hc : ins.requestedCPU = ""
      · by_cases hm : ins.requestedMemory = ""
        · simp [hc, hm]
        · cases hpm : parseQ ins.requestedMemory <;> simp [hc, hm, hpm]
      · cases hpc : parseQ ins.requestedCPU with
        | none => simp [hc, hpc]
        | some c =>
          by_cases hm : ins.requestedMemory = ""
          · simp [hc, hm, hpc]
          · cases hpm : parseQ ins.requestedMemory <;> simp [hc, hm, hpc, hpm]

theorem reservedFold_eq (parseQ : String → Option Int) (now : Int)
    (instrs : List ProviderInstruction) (acc : Int × Int) :
    instrs.foldl (reservedStep parseQ now) acc
      = (acc.1 + (instrs.map (cpuContrib parseQ now)).sum,
         acc.2 + (instrs.map (memContrib parseQ now)).sum) := by
  induction instrs generalizing acc with
  | nil => simp
  | cons ins rest ih =>
    simp only [List.foldl_cons, List.map_cons, List.sum_cons]
    rw [reservedStep_eq, ih]
    simp only [Prod.mk.injEq]
    constructor <;> ring

theorem calculateReservedResources_eq (parseQ : String → Option Int) (now : Int)
    (instrs : List ProviderInstruction) :
    calculateReservedResources parseQ now instrs
      = ((instrs.map (cpuContrib parseQ now)).sum,
         (instrs.map (memContrib parseQ now)).sum) := by
  unfold calculateReservedResources
  rw [reservedFold_eq]
  simp

theorem addOpt_eq_getD (a : Int) (q : Option Int) : addOpt a q = a + q.getD 0 := by
  cases q <;> simp [addOpt]

theorem nodeStep_eq (acc : NodeAcc) (n : NodeInfo) :
    nodeStep acc n =
      { capCPU := acc.capCPU + nodeContrib (fun x => x.capCPU) n
        capMemory := acc.capMemory + nodeContrib (fun x => x.capMemory) n
        capGPU := acc.capGPU + nodeContrib (fun x => x.capGPU) n
        allocCPU := acc.allocCPU + nodeContrib (fun x => x.allocCPU) n
        allocMemory := acc.allocMemory + nodeContrib (fun x => x.allocMemory) n
        allocGPU := acc.allocGPU + nodeContrib (fun x => x.allocGPU) n
        hasGPU := acc.hasGPU || nodeHasGPU n } := by
  unfold nodeStep nodeContrib nodeHasGPU
  cases hr : isNodeReady n with
  | false => cases acc; simp [hr]
  | true => simp [hr, addOpt_eq_getD]

theorem aggregateNodes_fold (nodes : List NodeInfo) (acc : NodeAcc) :
    nodes.foldl nodeStep acc =
      { capCPU := acc.capCPU + (nodes.map (nodeContrib (fun x => x.capCPU))).sum
        capMemory := acc.capMemory + (nodes.map (nodeContrib (fun x => x.capMemory))).sum
        capGPU := acc.capGPU + (nodes.map (nodeContrib (fun x => x.capGPU))).sum
        allocCPU := acc.allocCPU + (nodes.map (nodeContrib (fun x => x.allocCPU))).sum
        allocMemory := acc.allocMemory + (nodes.map (nodeContrib (fun x => x.allocMemory))).sum
        allocGPU := acc.allocGPU + (nodes.map (nodeContrib (fun x => x.allocGPU))).sum
        hasGPU := acc.hasGPU || nodes.any nodeHasGPU } := by
  induction nodes generalizing acc with
  | nil => cases acc; simp
  | cons n rest ih =>
    simp only [List.foldl_cons, List.map_cons, List.sum_cons, List.any_cons]
    rw [nodeStep_eq, ih]
    simp only [NodeAcc.mk.injEq]
    refine ⟨by ring, by ring, by ring, by ring, by ring, by ring, ?_⟩
    simp [Bool.or_assoc]

theorem aggregateNodes_eq (nodes : List NodeInfo) :
    aggregateNodes nodes =
      { capCPU := (nodes.map (nodeContrib (fun x => x.capCPU))).sum
        capMemory := (nodes.map (nodeContrib (fun x => x.capMemory))).sum
        capGPU := (nodes.map (nodeContrib (fun x => x.capGPU))).sum
        allocCPU := (nodes.map (nodeContrib (fun x => x.allocCPU))).sum
        allocMemory := (nodes.map (nodeContrib (fun x => x.allocMemory))).sum
        allocGPU := (nodes.map (nodeContrib (fun x => x.allocGPU))).sum
        hasGPU := nodes.any nodeHasGPU } := by
  unfold aggregateNodes
  rw [aggregateNodes_fold]
  simp

theorem containersReqSum_of_no_key (f : ContainerInfo → Option Int)
    (cs : List ContainerInfo) (h : cs.any (fun c => (f c).isSome) = false) :
    containersReqSum f cs = 0 := by
  unfold containersReqSum
  induction cs with
  | nil => simp
  | cons c rest ih =>
    simp only [List.any_cons, Bool.or_eq_false_iff] at h
    have hc : f c = none := by
      cases hfc : f c with
      | none => rfl
      | some v => rw [hfc] at h; simp at h
    simp only [List.foldl_cons, hc, addOpt]
    exact ih h.2

theorem initReqMax_of_no_key (f : ContainerInfo → Option Int)
    (cs : List ContainerInfo) (h : cs.any (fun c => (f c).isSome) = false) :
    initReqMax f cs = 0 := by
  unfold initReqMax
  induction cs with
  | nil => simp
  | cons c rest ih =>
    simp only [List.any_cons, Bool.or_eq_false_iff] at h
    have hc : f c = none := by
      cases hfc : f c with
      | none => rfl
      | some v => rw [hfc] at h; simp at h
    simp only [List.foldl_cons, hc]
    exact ih h.2

theorem podStep_eq (acc : PodAcc) (p : PodInfo) :
    podStep acc p =
      { cpu := acc.cpu + podCPU p
        memory := acc.memory + podMemory p
        gpu := acc.gpu + podGPU p
        hasGPU := acc.hasGPU || podHasGPU p } := by
  unfold podStep podCPU podMemory podGPU podHasGPU
  cases hA : podActive p with
  | false => cases acc; simp [hA]
  | true =>
    simp only [hA, Bool.not_true, Bool.false_eq_true, if_false, if_true,
      Bool.true_and]
    by_cases hk : (p.containers.any (fun c => c.reqGPU.isSome)
        || p.initContainers.any (fun c => c.reqGPU.isSome)) = true
    · have hflag : (acc.hasGPU || p.containers.any (fun c => c.reqGPU.isSome)
          || p.initContainers.any (fun c => c.reqGPU.isSome)) = true := by
        rcases Bool.or_eq_true_iff.mp hk with h | h <;> simp [h]
      simp only [hflag, if_true, PodAcc.mk.injEq]
      rcases Bool.or_eq_true_iff.mp hk with h | h <;>
        simp [h, addOpt_eq_getD, Bool.or_assoc, add_assoc]
    · have h1 : p.containers.any (fun c => c.reqGPU.isSome) = false := by
        rcases Bool.or_eq_false_iff.mp (Bool.eq_false_iff.mpr hk) with ⟨ha, hb⟩
        exact ha
      have h2 : p.initContainers.any (fun c => c.reqGPU.isSome) = false := by
        rcases Bool.or_eq_false_iff.mp (Bool.eq_false_iff.mpr hk) with ⟨ha, hb⟩
        exact hb
      have hc0 : containersReqSum (fun x => x.reqGPU) p.containers = 0 :=
        containersReqSum_of_no_key _ _ h1
      have hi0 : initReqMax (fun x => x.reqGPU) p.initContainers = 0 :=
        initReqMax_of_no_key _ _ h2
      cases hg : acc.hasGPU <;>
        simp [h1, h2, hc0, hi0, hg, addOpt_eq_getD, add_assoc]

theorem calculateAllocated_fold (pods : List PodInfo) (acc : PodAcc) :
    pods.foldl podStep acc =
      { cpu := acc.cpu + (pods.map podCPU).sum
        memory := acc.memory + (pods.map podMemory).sum
        gpu := acc.gpu + (pods.map podGPU).sum
        hasGPU := acc.hasGPU || pods.any podHasGPU } := by
  induction pods generalizing acc with
  | nil => cases acc; simp
  | cons p rest ih =>
    simp only [List.foldl_cons, List.map_cons, List.sum_cons, List.any_cons]
    rw [podStep_eq, ih]
    simp only [PodAcc.mk.injEq]
    refine ⟨by ring, by ring, by ring, ?_⟩
    simp [Bool.or_assoc]

theorem calculateAllocatedResources_eq (pods : List PodInfo) :
    calculateAllocatedResources pods =
      { cpu := (pods.map podCPU).sum
        memory := (pods.map podMemory).sum
        gpu := (pods.map podGPU).sum
        hasGPU := pods.any podHasGPU } := by
  unfold calculateAllocatedResources
  rw [calculateAllocated_fold]
  simp

theorem ifGt_eq_max (c i : Int) : (if i > c then i else c) = max c i := by
  rcases lt_or_le c i with h | h
  · simp [h, max_eq_right h.le]
  · simp [not_lt.mpr h, max_eq_left h]

/-- C1 (amended). For every collection over any inputs, the returned
`ResourceMetrics` satisfies, per resource kind,
`Available = Allocatable - Allocated - Reserved` as a plain subtraction with
no clamping at zero (`Quantity.Sub` does not clamp), so Available is negative
whenever Allocated + Reserved exceed Allocatable; GPU is derived the same way
whenever it is tracked (the collector's Reserved has no GPU component). -/
theorem c1_available_unclamped_subtraction (nodes : List NodeInfo)
    (pods : List PodInfo) (instrs : List ProviderInstruction)
    (parseQ : String → Option Int) (now : Int) (m : ResourceMetrics)
    (h : collectClusterResources nodes pods instrs parseQ now = .ok m) :
    m.available.cpu
        = m.allocatable.cpu - m.allocated.cpu
          - (calculateReservedResources parseQ now instrs).1
      ∧ m.available.memory
        = m.allocatable.memory - m.allocated.memory
          - (calculateReservedResources parseQ now instrs).2
      ∧ m.available.gpu
        = m.allocatable.gpu.map (fun a => a - m.allocated.gpu.getD 0) := by
  unfold collectClusterResources at h
  split at h
  · exact absurd h (by simp)
  · injection h with h'
    subst h'
    refine ⟨rfl, rfl, ?_⟩
    by_cases hg : (aggregateNodes nodes).hasGPU <;> simp [hg]

theorem c1_available_unclamped_subtraction_witness :
    collectClusterResources [smallNode] [oversubscribedPod] [] simpleParse 0
        = .ok { capacity := ⟨1000, 0, none⟩, allocatable := ⟨1000, 0, none⟩,
                allocated := ⟨2000, 0, none⟩, available := ⟨-1000, 0, none⟩ }
      ∧ (-1000 : Int) = 1000 - 2000 - (calculateReservedResources simpleParse 0 []).1 := by
  have hok : collectClusterResources [smallNode] [oversubscribedPod] [] simpleParse 0
      = .ok { capacity := ⟨1000, 0, none⟩, allocatable := ⟨1000, 0, none⟩,
              allocated := ⟨2000, 0, none⟩, available := ⟨-1000, 0, none⟩ } := rfl
  have h := c1_available_unclamped_subtraction [smallNode] [oversubscribedPod] []
    simpleParse 0 _ hok
  exact ⟨hok, h.1⟩

/-- C1 counterexample. With one ready 1-CPU node and one running pod
requesting 2 CPU, the collector returns Available CPU = −1000 milli-units,
while the claimed `clamp(Allocatable − Allocated − Reserved, 0)` is 0: the
source does not clamp and Available goes negative. -/
theorem c1_clamped_available_counterexample :
    collectClusterResources [smallNode] [oversubscribedPod] [] simpleParse 0
        = .ok { capacity := ⟨1000, 0, none⟩, allocatable := ⟨1000, 0, none⟩,
                allocated := ⟨2000, 0, none⟩, available := ⟨-1000, 0, none⟩ }
      ∧ clampNonneg (1000 - 2000 - 0) = 0
      ∧ (-1000 : Int) ≠ clampNonneg (1000 - 2000 - 0) := by
  refine ⟨rfl, by decide, by decide⟩

/-- C5. A pod in `Running` or `Pending` phase contributes, per resource
kind, `max(sum over concurrent containers, max over init containers)` plus
the fixed `pod.Spec.Overhead`; a pod in any other (terminal/failed) phase
leaves the accumulator unchanged. -/
theorem c5_workload_allocated_contribution (acc : PodAcc) (p : PodInfo) :
    (podActive p = false → podStep acc p = acc)
      ∧ (podActive p = true →
          (podStep acc p).cpu
              = acc.cpu
                + max (containersReqSum (fun c => c.reqCPU) p.containers)
                    (initReqMax (fun c => c.reqCPU) p.initContainers)
                + p.overheadCPU.getD 0
            ∧ (podStep acc p).memory
              = acc.memory
                + max (containersReqSum (fun c => c.reqMemory) p.containers)
                    (initReqMax (fun c => c.reqMemory) p.initContainers)
                + p.overheadMemory.getD 0
            ∧ (podStep acc p).gpu
              = acc.gpu
                + max (containersReqSum (fun c => c.reqGPU) p.containers)
                    (initReqMax (fun c => c.reqGPU) p.initContainers)
                + p.overheadGPU.getD 0) := by
  constructor
  · intro hA
    rw [podStep_eq]
    cases acc
    simp [podCPU, podMemory, podGPU, podHasGPU, hA]
  · intro hA
    refine ⟨?_, ?_, ?_⟩ <;>
      · simp only [podStep_eq, podCPU, podMemory, podGPU, hA, if_true, ifGt_eq_max]
        ring

theorem c5_workload_allocated_contribution_witness :
    podActive examplePod = true
      ∧ (podStep ⟨0, 0, 0, false⟩ examplePod).cpu = 2250 := by
  have h := (c5_workload_allocated_contribution ⟨0, 0, 0, false⟩ examplePod).2 (by decide)
  refine ⟨by decide, ?_⟩
  rw [h.1]
  decide

/-- C6 (amended). Reserved is the sum of the parsed requested amounts of
exactly those provider instructions that are enforced and whose expiry is
absent or **not strictly before** the evaluation time: an enforced hold whose
expiry has strictly passed contributes zero (silently skipped), a hold whose
expiry equals the evaluation instant still contributes in full, and the
contribution toggles to zero only strictly after the expiry instant.
Unenforced or strictly-expired holds contribute zero to both kinds. -/
theorem c6_reserved_hold_accounting (parseQ : String → Option Int) (now : Int)
    (instrs : List ProviderInstruction) (ins : ProviderInstruction) (d : Nat) :
    calculateReservedResources parseQ now instrs
        = ((instrs.map (cpuContrib parseQ now)).sum,
           (instrs.map (memContrib parseQ now)).sum)
      ∧ holdActive now { ins with enforced := true, expiresAt := none } = true
      ∧ holdActive now { ins with enforced := true, expiresAt := some now } = true
      ∧ holdActive now { ins with enforced := true, expiresAt := some (now + 1 + d) } = true
      ∧ holdActive now { ins with expiresAt := some (now - 1 - d) } = false
      ∧ holdActive now { ins with enforced := false } = false
      ∧ cpuContrib parseQ now { ins with enforced := false } = 0
      ∧ memContrib parseQ now { ins with enforced := false } = 0
      ∧ cpuContrib parseQ now { ins with expiresAt := some (now - 1 - d) } = 0
      ∧ memContrib parseQ now { ins with expiresAt := some (now - 1 - d) } = 0 := by
  have hpast : expiredBefore (some (now - 1 - (d : Int))) now = true := by
    simp only [expiredBefore, decide_eq_true_eq]
    omega
  have hfut : expiredBefore (some (now + 1 + (d : Int))) now = false := by
    simp only [expiredBefore, decide_eq_false_iff_not]
    omega
  have hnow : expiredBefore (some now) now = false := by
    simp [expiredBefore]
  refine ⟨calculateReservedResources_eq parseQ now instrs, ?_, ?_, ?_, ?_, ?_, ?_, ?_, ?_, ?_⟩
  · simp [holdActive, expiredBefore]
  · simp [holdActive, hnow]
  · simp [holdActive, hfut]
  · simp [holdActive, hpast]
  · simp [holdActive]
  · simp [cpuContrib, holdActive]
  · simp [memContrib, holdActive]
  · simp [cpuContrib, holdActive, hpast]
  · simp [memContrib, holdActive, hpast]

/-- C6 counterexample. An enforced hold with expiry exactly equal to the
evaluation time (100) is not "strictly in the future", so the claim says it
contributes zero; the source's test is the strict `ExpiresAt.Before(now)`,
and the hold still contributes its full (2 CPU, 4 memory). -/
theorem c6_expiry_instant_counterexample :
    calculateReservedResources simpleParse 100 [expiryInstantHold] = (2, 4)
      ∧ ¬((100 : Int) < 100)
      ∧ ((2 : Int), (4 : Int)) ≠ ((0 : Int), (0 : Int)) := by
  refine ⟨by decide, by decide, by decide⟩

/-- C10. A provider instruction whose CPU string fails to parse is
skipped in full — it contributes nothing to Reserved, not even its memory —
while every other instruction still counts; an instruction whose CPU parses
but whose memory string fails to parse contributes its CPU amount and no
memory. In both cases the computation succeeds (no error is returned; the
source logs and `continue`s). -/
theorem c10_unparseable_hold_skipped (parseQ : String → Option Int) (now : Int)
    (pre post : List ProviderInstruction) (ins ins2 : ProviderInstruction) (c : Int) :
    (holdActive now ins = true → ins.requestedCPU ≠ "" →
        parseQ ins.requestedCPU = none →
        calculateReservedResources parseQ now (pre ++ ins :: post)
          = calculateReservedResources parseQ now (pre ++ post))
      ∧ (holdActive now ins2 = true → ins2.requestedCPU ≠ "" →
          parseQ ins2.requestedCPU = some c →
          ins2.requestedMemory ≠ "" → parseQ ins2.requestedMemory = none →
          calculateReservedResources parseQ now (pre ++ ins2 :: post)
            = ((calculateReservedResources parseQ now (pre ++ post)).1 + c,
               (calculateReservedResources parseQ now (pre ++ post)).2)) := by
  constructor
  · intro hAct hne hparse
    rw [calculateReservedResources_eq, calculateReservedResources_eq]
    have hcpu : cpuContrib parseQ now ins = 0 := by
      simp [cpuContrib, hAct, hne, hparse]
    have hmem : memContrib parseQ now ins = 0 := by
      simp [memContrib, hAct, hne, hparse]
    simp [hcpu, hmem]
  · intro hAct hcne hc hmne hmparse
    rw [calculateReservedResources_eq, calculateReservedResources_eq]
    have hcpu : cpuContrib parseQ now ins2 = c := by
      simp [cpuContrib, hAct, hcne, hc]
    have hmem : memContrib parseQ now ins2 = 0 := by
      simp [memContrib, hAct, hc, hmne, hmparse]
    simp only [List.map_append, List.map_cons, List.sum_append, List.sum_cons,
      hcpu, hmem, Prod.mk.injEq]
    constructor <;> ring

theorem c10_unparseable_hold_skipped_witness :
    holdActive 0 badCPUHold = true
      ∧ simpleParse "junk" = none
      ∧ calculateReservedResources simpleParse 0 [witnessHold, badCPUHold]
        = calculateReservedResources simpleParse 0 [witnessHold]
      ∧ calculateReservedResources simpleParse 0 [witnessHold, badMemoryHold]
        = ((calculateReservedResources simpleParse 0 [witnessHold]).1 + 2,
           (calculateReservedResources simpleParse 0 [witnessHold]).2) := by
  have h1 := (c10_unparseable_hold_skipped simpleParse 0 [witnessHold] []
    badCPUHold badMemoryHold 2).1 (by decide) (by decide) (by decide)
  have h2 := (c10_unparseable_hold_skipped simpleParse 0 [witnessHold] []
    badCPUHold badMemoryHold 2).2 (by decide) (by decide) (by decide)
    (by decide) (by decide)
  exact ⟨by decide, by decide, by simpa using h1, by simpa using h2⟩

theorem perm_any_eq {α : Type} {l l' : List α} (h : l.Perm l') (f : α → Bool) :
    l.any f = l'.any f := by
  apply Bool.coe_iff_coe.mp
  simp only [List.any_eq_true]
  exact ⟨fun ⟨x, hx, hfx⟩ => ⟨x, h.mem_iff.mp hx, hfx⟩,
    fun ⟨x, hx, hfx⟩ => ⟨x, h.mem_iff.mpr hx, hfx⟩⟩

theorem perm_isEmpty_eq {α : Type} {l l' : List α} (h : l.Perm l') :
    l.isEmpty = l'.isEmpty := by
  cases l with
  | nil => rw [h.nil_eq]
  | cons a t =>
    cases l' with
    | nil => exact absurd h.symm.nil_eq (by simp)
    | cons b u => rfl

/-- C8. The accounting computation is order-insensitive: permuting the
node list, the pod list or the provider-instruction list leaves the
`ResourceMetrics` result of `CollectClusterResources` unchanged (every
accumulator is a per-element sum, a per-element disjunction, or the
empty-list test, all invariant under permutation). -/
theorem c8_accounting_order_insensitive (nodes nodes2 : List NodeInfo)
    (pods pods2 : List PodInfo) (instrs instrs2 : List ProviderInstruction)
    (parseQ : String → Option Int) (now : Int)
    (hn : nodes.Perm nodes2) (hp : pods.Perm pods2) (hi : instrs.Perm instrs2) :
    collectClusterResources nodes pods instrs parseQ now
      = collectClusterResources nodes2 pods2 instrs2 parseQ now := by
  have hE : nodes.isEmpty = nodes2.isEmpty := perm_isEmpty_eq hn
  have hA : aggregateNodes nodes = aggregateNodes nodes2 := by
    rw [aggregateNodes_eq, aggregateNodes_eq]
    simp only [NodeAcc.mk.injEq]
    exact ⟨(hn.map _).sum_eq, (hn.map _).sum_eq, (hn.map _).sum_eq,
      (hn.map _).sum_eq, (hn.map _).sum_eq, (hn.map _).sum_eq,
      perm_any_eq hn _⟩
  have hC : calculateAllocatedResources pods = calculateAllocatedResources pods2 := by
    rw [calculateAllocatedResources_eq, calculateAllocatedResources_eq]
    simp only [PodAcc.mk.injEq]
    exact ⟨(hp.map _).sum_eq, (hp.map _).sum_eq, (hp.map _).sum_eq,
      perm_any_eq hp _⟩
  have hR : calculateReservedResources parseQ now instrs
      = calculateReservedResources parseQ now instrs2 := by
    rw [calculateReservedResources_eq, calculateReservedResources_eq,
      (hi.map _).sum_eq, (hi.map _).sum_eq]
  unfold collectClusterResources
  rw [hE, hA, hC, hR]

theorem c8_accounting_order_insensitive_witness :
    [smallNode, secondNode].Perm [secondNode, smallNode]
      ∧ [smallPod, oversubscribedPod].Perm [oversubscribedPod, smallPod]
      ∧ [witnessHold, witnessHold2].Perm [witnessHold2, witnessHold]
      ∧ collectClusterResources [smallNode, secondNode] [smallPod, oversubscribedPod]
          [witnessHold, witnessHold2] simpleParse 0
        = collectClusterResources [secondNode, smallNode] [oversubscribedPod, smallPod]
            [witnessHold2, witnessHold] simpleParse 0 :=
  ⟨by decide, by decide, by decide,
    c8_accounting_order_insensitive _ _ _ _ _ _ simpleParse 0
      (by decide) (by decide) (by decide)⟩

/-- C2. In `publishOnce`, the outbound Reserved equals exactly the Reserved
figure of the successfully fetched broker record — never a locally computed
or zeroed value — and is omitted when the fetch fails, when no prior record
exists, or when the record carries no Reserved; the HTTP transport's publish
behaves the same on the DTO the agent builds (whose Reserved starts absent). -/
theorem c2_reserved_merge_protocol (m : ResourceMetrics)
    (fetched : Option BrokerRecord)
    (httpFetched : Option (Option ReservedFigure)) :
    (publishOnceResourcesSpec m fetched).reserved
        = fetched.bind (fun existing => existing.reserved)
      ∧ httpPublishReserved toAdvertisementDTOReserved httpFetched = httpFetched.join
      ∧ (publishOnceResourcesSpec m fetched).capacity = m.capacity
      ∧ (publishOnceResourcesSpec m fetched).available = m.available := by
  refine ⟨?_, ?_, rfl, rfl⟩
  · cases fetched <;> rfl
  · cases httpFetched with
    | none => rfl
    | some r => cases r <;> rfl

theorem backoffLoop_zero (attempts : Nat → Option ApiError) (i : Nat)
    (lastErr : Option ApiError) :
    exponentialBackoffLoop attempts 0 i lastErr = (some .errWaitTimeout, lastErr) := rfl

theorem backoffLoop_success (attempts : Nat → Option ApiError) (steps i : Nat)
    (lastErr : Option ApiError) (h : attempts i = none) :
    exponentialBackoffLoop attempts (steps + 1) i lastErr = (none, lastErr) := by
  simp [exponentialBackoffLoop, h]

theorem backoffLoop_permanent (attempts : Nat → Option ApiError) (steps i : Nat)
    (lastErr : Option ApiError) (e : ApiError) (h : attempts i = some e)
    (ht : isTransientError (some e) = false) :
    exponentialBackoffLoop attempts (steps + 1) i lastErr
      = (some (.conditionError e), lastErr) := by
  simp [exponentialBackoffLoop, h, ht]

theorem backoffLoop_transient (attempts : Nat → Option ApiError) (steps i : Nat)
    (lastErr : Option ApiError) (e : ApiError) (h : attempts i = some e)
    (ht : isTransientError (some e) = true) :
    exponentialBackoffLoop attempts (steps + 1) i lastErr
      = exponentialBackoffLoop attempts steps (i + 1) (some e) := by
  simp [exponentialBackoffLoop, h, ht]

/-- C7 (amended). Transient failures (timeout, service-unavailable,
rate-limited, internal-error) are retried up to the 4-step budget and
non-transient failures (bad request, auth failure) stop the loop
immediately; exhausting the budget returns an error wrapping the last
transient error. The error identity on early stop is weaker than claimed:
the non-transient error itself reaches the caller only when no transient
failure preceded it — otherwise the caller receives the wrap of the last
transient error, the non-transient one being discarded. -/
theorem c7_retry_classification (attempts : Nat → Option ApiError)
    (e e0 e1 e2 e3 : ApiError) :
    (isTransientError (some .timeout) = true
        ∧ isTransientError (some .serverTimeout) = true
        ∧ isTransientError (some .serviceUnavailable) = true
        ∧ isTransientError (some .tooManyRequests) = true
        ∧ isTransientError (some .internalError) = true
        ∧ isTransientError (some .badRequest) = false
        ∧ isTransientError (some .unauthorized) = false
        ∧ isTransientError none = false)
      ∧ (attempts 0 = some e → isTransientError (some e) = false →
          publishAdvertisement attempts = .failed (.conditionError e))
      ∧ (attempts 0 = some e0 → isTransientError (some e0) = true →
          attempts 1 = none →
          publishAdvertisement attempts = .ok)
      ∧ (attempts 0 = some e0 → attempts 1 = some e1 → attempts 2 = some e2 →
          attempts 3 = some e3 →
          isTransientError (some e0) = true → isTransientError (some e1) = true →
          isTransientError (some e2) = true → isTransientError (some e3) = true →
          publishAdvertisement attempts = .publishFailedAfterRetries e3)
      ∧ (attempts 0 = some e0 → isTransientError (some e0) = true →
          attempts 1 = some e1 → isTransientError (some e1) = false →
          publishAdvertisement attempts = .publishFailedAfterRetries e0) := by
  refine ⟨⟨rfl, rfl, rfl, rfl, rfl, rfl, rfl, rfl⟩, ?_, ?_, ?_, ?_⟩
  · intro h0 ht0
    have l1 : exponentialBackoffLoop attempts 4 0 none
        = (some (.conditionError e), none) := by
      simpa using backoffLoop_permanent attempts 3 0 none e h0 ht0
    unfold publishAdvertisement
    rw [l1]
  · intro h0 ht0 h1
    have l1 : exponentialBackoffLoop attempts 4 0 none
        = exponentialBackoffLoop attempts 3 1 (some e0) := by
      simpa using backoffLoop_transient attempts 3 0 none e0 h0 ht0
    have l2 : exponentialBackoffLoop attempts 3 1 (some e0) = (none, some e0) := by
      simpa using backoffLoop_success attempts 2 1 (some e0) h1
    unfold publishAdvertisement
    rw [l1, l2]
  · intro h0 h1 h2 h3 ht0 ht1 ht2 ht3
    have l1 : exponentialBackoffLoop attempts 4 0 none
        = exponentialBackoffLoop attempts 3 1 (some e0) := by
      simpa using backoffLoop_transient attempts 3 0 none e0 h0 ht0
    have l2 : exponentialBackoffLoop attempts 3 1 (some e0)
        = exponentialBackoffLoop attempts 2 2 (some e1) := by
      simpa using backoffLoop_transient attempts 2 1 (some e0) e1 h1 ht1
    have l3 : exponentialBackoffLoop attempts 2 2 (some e1)
        = exponentialBackoffLoop attempts 1 3 (some e2) := by
      simpa using backoffLoop_transient attempts 1 2 (some e1) e2 h2 ht2
    have l4 : exponentialBackoffLoop attempts 1 3 (some e2)
        = exponentialBackoffLoop attempts 0 4 (some e3) := by
      simpa using backoffLoop_transient attempts 0 3 (some e2) e3 h3 ht3
    unfold publishAdvertisement
    rw [l1, l2, l3, l4, backoffLoop_zero]
  · intro h0 ht0 h1 ht1
    have l1 : exponentialBackoffLoop attempts 4 0 none
        = exponentialBackoffLoop attempts 3 1 (some e0) := by
      simpa using backoffLoop_transient attempts 3 0 none e0 h0 ht0
    have l2 : exponentialBackoffLoop attempts 3 1 (some e0)
        = (some (.conditionError e1), some e0) := by
      simpa using backoffLoop_permanent attempts 2 1 (some e0) e1 h1 ht1
    unfold publishAdvertisement
    rw [l1, l2]

theorem c7_retry_classification_witness :
    transientThenOk 0 = some .serviceUnavailable
      ∧ isTransientError (some .serviceUnavailable) = true
      ∧ transientThenOk 1 = none
      ∧ publishAdvertisement transientThenOk = .ok := by
  have h := (c7_retry_classification transientThenOk .serviceUnavailable
    .serviceUnavailable .serviceUnavailable .serviceUnavailable
    .serviceUnavailable).2.2.1 rfl rfl rfl
  exact ⟨rfl, rfl, rfl, h⟩

/-- C7 counterexample. When a transient timeout precedes a non-transient
bad request, the retry loop stops at the bad request but the caller
receives "publish failed after retries" wrapping the earlier timeout — not
the bad-request error the claim says is returned. -/
theorem c7_permanent_after_transient_counterexample :
    publishAdvertisement transientThenPermanent
        = .publishFailedAfterRetries .timeout
      ∧ isTransientError (some .badRequest) = false
      ∧ PublishResult.publishFailedAfterRetries .timeout
          ≠ .failed (.conditionError .badRequest) := by
  refine ⟨by decide, rfl, by decide⟩

/-- C4 (amended). The accounting computation fails — and that cycle
publishes nothing, writing status `Error` instead — exactly when the host
inventory is empty ("no nodes found in cluster"); a nonempty inventory
containing zero ready hosts is not an error (see the counterexample). -/
theorem c4_empty_inventory_no_publish (brokerEnabled : Bool)
    (pods : List PodInfo) (instrs : List ProviderInstruction)
    (parseQ : String → Option Int) (now : Int) :
    collectClusterResources [] pods instrs parseQ now
        = .error "no nodes found in cluster"
      ∧ (reconcileAdvertisement true brokerEnabled [] pods instrs parseQ now).publishAttempted
        = false
      ∧ (reconcileAdvertisement true brokerEnabled [] pods instrs parseQ now).statusPhase
        = "Error" := by
  refine ⟨rfl, ?_, ?_⟩ <;> rfl

/-- C4 counterexample. An inventory with one host and zero hosts in the
ready condition does not fail: collection succeeds (with zero capacity,
the non-ready node being skipped) and the cycle proceeds to attempt a
publish, contrary to the claimed NoCapacity failure with no publish. -/
theorem c4_zero_ready_counterexample :
    isNodeReady notReadyNode = false
      ∧ collectClusterResources [notReadyNode] [] [] simpleParse 0
        = .ok { capacity := ⟨0, 0, none⟩, allocatable := ⟨0, 0, none⟩,
                allocated := ⟨0, 0, none⟩, available := ⟨0, 0, none⟩ }
      ∧ (reconcileAdvertisement true true [notReadyNode] [] [] simpleParse 0).publishAttempted
        = true
      ∧ (reconcileAdvertisement true true [notReadyNode] [] [] simpleParse 0).statusPhase
        ≠ "Error" := by
  refine ⟨rfl, rfl, rfl, by decide⟩

/-- C3 (amended). Observing the same Reserved reservation any second time
yields exactly one `ReservationInstruction` keyed by the reservation id (no
duplicate is ever created), but the poller leaves the existing record
unchanged rather than overwriting it: after a second observation with
changed fields the record still carries the values of the *first*
observation (target cluster included). -/
theorem c3_single_instruction_first_values (r1 r2 : ReservationDTO)
    (hid : r2.id = r1.id) (h1 : r1.phase = "Reserved") (h2 : r2.phase = "Reserved") :
    (pollAndProcessRequester [] [r1, r2]).countP (fun kv => kv.1 == r1.id) = 1
      ∧ storeGet (pollAndProcessRequester [] [r1, r2]) r1.id
        = some (requesterInstructionOf r1) := by
  have hs1 : pollAndProcessRequester [] [r1, r2]
      = createRequesterInstruction [(r1.id, requesterInstructionOf r1)] r2 := by
    unfold pollAndProcessRequester
    simp [h1, h2, createRequesterInstruction, storeGet]
  have hs2 : createRequesterInstruction [(r1.id, requesterInstructionOf r1)] r2
      = [(r1.id, requesterInstructionOf r1)] := by
    unfold createRequesterInstruction
    simp [storeGet, hid]
  rw [hs1, hs2]
  constructor
  · simp [List.countP_cons]
  · simp [storeGet]

theorem c3_single_instruction_first_values_witness :
    (pollAndProcessRequester [] [firstObservation, secondObservation]).countP
        (fun kv => kv.1 == firstObservation.id) = 1
      ∧ storeGet (pollAndProcessRequester [] [firstObservation, secondObservation])
          firstObservation.id
        = some (requesterInstructionOf firstObservation) :=
  c3_single_instruction_first_values firstObservation secondObservation rfl rfl rfl

/-- C3 counterexample. Re-observing reservation res-1 with its target
corrected from paris to berlin leaves the stored instruction's target at
paris: the poller does not update existing records, so the record does not
equal the most recently observed values as claimed. -/
theorem c3_stale_target_counterexample :
    (storeGet (pollAndProcessRequester [] [firstObservation, secondObservation])
          "res-1").map (fun i => i.targetClusterID) = some "paris"
      ∧ secondObservation.targetClusterID = "berlin"
      ∧ some "paris" ≠ some "berlin" := by
  refine ⟨rfl, rfl, by decide⟩

/-- C9. Re-evaluating an instruction whose expiry has strictly passed sets
`ProviderInstruction.enforced` to false and leaves
`ReservationInstruction.delivered` false (lowering it when it was true),
changing nothing else; and neither reconciler ever deletes a record — a
present record is still present afterwards, whether expired or not. -/
theorem c9_expiry_reevaluation (now : Int) (p : ProviderInstruction)
    (r : ReservationInstruction)
    (hp : expiredBefore p.expiresAt now = true)
    (hr : expiredBefore r.expiresAt now = true) :
    providerInstructionReconcile now (some p) = some { p with enforced := false }
      ∧ reservationInstructionReconcile now (some r) = some { r with delivered := false }
      ∧ (∀ q, (providerInstructionReconcile now (some q)).isSome = true)
      ∧ (∀ q, (reservationInstructionReconcile now (some q)).isSome = true) := by
  refine ⟨?_, ?_, ?_, ?_⟩
  · simp [providerInstructionReconcile, hp]
  · cases hd : r.delivered
    · cases r
      simp only [reservationInstructionReconcile] at *
      simp_all
    · simp [reservationInstructionReconcile, hr, hd]
  · intro q
    unfold providerInstructionReconcile
    by_cases hq : expiredBefore q.expiresAt now <;> by_cases he : q.enforced <;>
      simp [hq, he]
  · intro q
    unfold reservationInstructionReconcile
    by_cases hq : expiredBefore q.expiresAt now <;> by_cases hd : q.delivered <;>
      simp [hq, hd]

theorem c9_expiry_reevaluation_witness :
    expiredBefore expiredProviderHold.expiresAt 100 = true
      ∧ expiredBefore expiredRequesterInstruction.expiresAt 100 = true
      ∧ providerInstructionReconcile 100 (some expiredProviderHold)
        = some { expiredProviderHold with enforced := false }
      ∧ reservationInstructionReconcile 100 (some expiredRequesterInstruction)
        = some { expiredRequesterInstruction with delivered := false } := by
  have h := c9_expiry_reevaluation 100 expiredProviderHold expiredRequesterInstruction
    (by decide) (by decide)
  exact ⟨by decide, by decide, h.1, h.2.1⟩

end LiqoAgent

